import Mathlib

/-!
Verification of the service-monitoring plugin (Elasticsearch / Kibana /
Logstash health-check CLI) against its natural-language specification.

The development shallowly embeds the status-evaluation and
error-classification pipeline of the repository:

* `src/lib/http_driver.py`          — `HttpDriver.request`
* `src/services/elasticsearch_service.py` — `ElasticsearchService.get_status`
* `src/services/kibana_service.py`  — `KibanaService.get_status`
* `src/services/logstash_service.py`— `LogstashService.get_status`
* `src/services/base_service.py`    — `BaseService.get_service` (the registry)
* `src/nagios/service_health_resource.py` — `ServiceHealthResource.probe`
* `src/nagios/service_health_context.py`  — `evaluate`, `describe`, `performance`
* `src/check_services.py`           — `check_service` (the orchestrator)

Python exceptions become `Except` values; the single outbound HTTP call
of one invocation becomes an explicit `TransportEvent` argument (the
outcome of `requests.request`, with the response body already parsed as
JSON, exactly as the repository's mocked-transport tests drive the code).
Exception *classes* are modelled precisely; the free-text payload of most
exception messages (Python f-strings interpolating `str(e)`) is not
modelled, except where a claim depends on the text (the HTTP status
error message and the unknown-service message).
-/

/-- A JSON value, the shape of `response.json()` in the probes.
Numbers are modelled as integers: the health bodies consumed by the three
probes carry only strings, nulls, objects and integer percentages. -/
inductive Json where
  | null : Json
  | str (s : String) : Json
  | num (n : Int) : Json
  | arr (elems : List Json) : Json
  | obj (fields : List (String × Json)) : Json

/-- The Python exceptions that the probe bodies can raise besides the
typed driver/service exceptions: `KeyError` (with its key), `TypeError`,
`ValueError`, `AttributeError`. -/
inductive PyErr where
  | keyError (key : String) : PyErr
  | typeError : PyErr
  | valueError : PyErr
  | attributeError : PyErr
deriving DecidableEq

/-- Python subscripting `data[key]` on a parsed-JSON value: a dict lookup
returns the value or raises `KeyError(key)`; subscripting any non-dict
JSON value with a string key raises `TypeError`. -/
def pyGetItem (v : Json) (key : String) : Except PyErr Json :=
  match v with
  | .obj fields =>
    match fields.lookup key with
    | some x => .ok x
    | none => .error (.keyError key)
  | _ => .error (.typeError)

/-- ASCII upper-casing of a string, char by char (`str.upper`). -/
def pyToUpper (s : String) : String :=
  ⟨s.data.map Char.toUpper⟩

/-- ASCII lower-casing of a string, char by char (`str.lower`). -/
def pyToLower (s : String) : String :=
  ⟨s.data.map Char.toLower⟩

/-- Python `value.upper()` on a parsed-JSON value: strings are
upper-cased, anything else (including `None`) raises `AttributeError`. -/
def pyUpper (v : Json) : Except PyErr String :=
  match v with
  | .str s => .ok (pyToUpper s)
  | _ => .error (.attributeError)

/-- Digit-string accumulator for `pyIntOfString`. -/
def digitsAux : List Char → Nat → Option Nat
  | [], acc => some acc
  | c :: rest, acc =>
    if c.isDigit then digitsAux rest (acc * 10 + (c.toNat - 48)) else none

/-- Parse a non-empty all-digit string to a natural number. -/
def digitsToNat : List Char → Option Nat
  | [] => none
  | cs => digitsAux cs 0

/-- Python `int(s)` on a string: an optional sign followed by digits
parses to an integer, anything else raises `ValueError`. -/
def pyIntOfString (s : String) : Option Int :=
  match s.data with
  | '-' :: rest => (digitsToNat rest).map (fun n => -(n : Int))
  | l => (digitsToNat l).map (fun n => (n : Int))

/-- Python `int(x)` on a parsed-JSON value: a number is returned as is, a
numeric string is parsed (else `ValueError`), and any other value
(`None`, list, dict) raises `TypeError`. -/
def pyInt (v : Json) : Except PyErr Int :=
  match v with
  | .num n => .ok n
  | .str s =>
    match pyIntOfString s with
    | some n => .ok n
    | none => .error (.valueError)
  | _ => .error (.typeError)

/-! ## Transport driver (`src/lib/http_driver.py`) -/

/-- The typed driver exceptions of `src/lib/exceptions.py`, all subtypes
of `HttpDriverException`.  `httpStatusError` carries its message because
the spec asserts the message includes the numeric status code; the
constructor `httpDriverException` is the base class, raised directly by
`HttpDriver.request` when an `HTTPError` carries no response. -/
inductive DriverError where
  | httpConnectionError : DriverError
  | httpTimeoutError : DriverError
  | httpAuthenticationError : DriverError
  | httpStatusError (message : String) : DriverError
  | httpUnexpectedError : DriverError
  | httpDriverException : DriverError
deriving DecidableEq

/-- The outcome of the underlying `requests.request(method, url, ...)`
call for the one HTTP request of an invocation: either a completed
response (final status code and parsed JSON body) or one of the
`requests` exception classes the driver catches.  `raisedHttpError`
carries the status code of the attached response when one is attached
(the repository's tests also raise `HTTPError` with no response). -/
inductive TransportEvent where
  | completed (status : Nat) (body : Json) : TransportEvent
  | raisedConnectionError : TransportEvent
  | raisedTimeout : TransportEvent
  | raisedHttpError (respStatus : Option Nat) : TransportEvent
  | raisedRequestException : TransportEvent

/-- `requests.Response.raise_for_status`: raises `HTTPError` (carrying
the response) exactly when the status code is in 400..599. -/
def raiseForStatus (status : Nat) : Option Nat :=
  if 400 ≤ status ∧ status < 600 then some status else none

namespace HttpDriver

/-- `HttpDriver.request` of `src/lib/http_driver.py`: performs the call,
applies `raise_for_status`, and translates each caught `requests`
exception into the typed driver taxonomy.  An `HTTPError` with an
attached response maps to `HttpAuthenticationError` on 401 and otherwise
to `HttpStatusError` with the code in the message; with no attached
response it raises the bare `HttpDriverException`. -/
def request (ev : TransportEvent) : Except DriverError (Nat × Json) :=
  match ev with
  | .completed status body =>
    match raiseForStatus status with
    | some code =>
      if code = 401 then .error (.httpAuthenticationError)
      else .error (.httpStatusError ("HTTP error occurred: " ++ toString code))
    | none => .ok (status, body)
  | .raisedConnectionError => .error (.httpConnectionError)
  | .raisedTimeout => .error (.httpTimeoutError)
  | .raisedHttpError (some code) =>
    if code = 401 then .error (.httpAuthenticationError)
    else .error (.httpStatusError ("HTTP error occurred: " ++ toString code))
  | .raisedHttpError none => .error (.httpDriverException)
  | .raisedRequestException => .error (.httpUnexpectedError)

end HttpDriver

/-! ## Service and nagios exception taxonomy (`src/lib/exceptions.py`) -/

/-- The service-level exceptions (subtypes of `ServiceError` in
`src/lib/exceptions.py`).  `serviceNotFoundError` carries its message
because the spec asserts it carries the unmodified service name. -/
inductive ServiceError where
  | invalidHealthStatusError : ServiceError
  | statusFormatError : ServiceError
  | serviceNotFoundError (message : String) : ServiceError
deriving DecidableEq

/-- Everything a probe's `get_status` can raise: a typed driver
exception propagating through, a typed service exception, or a raw
Python exception escaping the probe's `except` clauses. -/
inductive CheckErr where
  | driver (e : DriverError) : CheckErr
  | service (e : ServiceError) : CheckErr
  | python (e : PyErr) : CheckErr
deriving DecidableEq

/-! ## Elasticsearch probe (`src/services/elasticsearch_service.py`) -/

namespace ElasticsearchService

/-- The `HealthStatus` enum: member-name lookup `HealthStatus[name]`
returning the member's `.value`, `none` when the name is no member
(Python raises `KeyError`). -/
def healthStatus : String → Option String
  | "GREEN" => some "OK"
  | "YELLOW" => some "WARNING"
  | "RED" => some "CRITICAL"
  | "UNKNOWN" => some "UNKNOWN"
  | _ => none

/-- `ElasticsearchService.get_status`: issue the GET through the driver,
read `data["status"]`, upper-case it, and map it through `HealthStatus`.
A `KeyError` (missing `status` key, or unrecognized status name) maps to
`InvalidHealthStatusError`; an `AttributeError` (`status` present but
not a string, e.g. `null`) maps to `StatusFormatError`; driver
exceptions and any other Python exception propagate. -/
def get_status (ev : TransportEvent) : Except CheckErr String :=
  match HttpDriver.request ev with
  | .error e => .error (.driver e)
  | .ok (_, data) =>
    match pyGetItem data "status" with
    | .error (.keyError _) => .error (.service .invalidHealthStatusError)
    | .error e => .error (.python e)
    | .ok v =>
      match pyUpper v with
      | .error .attributeError => .error (.service .statusFormatError)
      | .error e => .error (.python e)
      | .ok health_status =>
        match healthStatus health_status with
        | some status => .ok status
        | none => .error (.service .invalidHealthStatusError)

end ElasticsearchService

/-! ## Kibana probe (`src/services/kibana_service.py`) -/

namespace KibanaService

/-- The Kibana `HealthStatus` enum: member-name lookup returning the
member's `.value`. -/
def healthStatus : String → Option String
  | "AVAILABLE" => some "OK"
  | "DEGRADED" => some "WARNING"
  | "CRITICAL" => some "CRITICAL"
  | "UNAVAILABLE" => some "UNKNOWN"
  | _ => none

/-- `KibanaService.get_status`: read
`data["status"]["overall"]["level"]`, upper-case it, and map it through
the Kibana `HealthStatus`.  `KeyError` maps to
`InvalidHealthStatusError`, `AttributeError` to `StatusFormatError`;
driver exceptions and any other Python exception propagate. -/
def get_status (ev : TransportEvent) : Except CheckErr String :=
  match HttpDriver.request ev with
  | .error e => .error (.driver e)
  | .ok (_, data) =>
    match pyGetItem data "status" >>= fun s => pyGetItem s "overall" >>= fun o =>
        pyGetItem o "level" with
    | .error (.keyError _) => .error (.service .invalidHealthStatusError)
    | .error e => .error (.python e)
    | .ok v =>
      match pyUpper v with
      | .error .attributeError => .error (.service .statusFormatError)
      | .error e => .error (.python e)
      | .ok health_status =>
        match healthStatus health_status with
        | some status => .ok status
        | none => .error (.service .invalidHealthStatusError)

end KibanaService

/-! ## Logstash probe (`src/services/logstash_service.py`) -/

namespace LogstashService

/-- The CPU banding of `LogstashService.get_status`, including the
final defensive `else` branch that yields `HealthStatus.UNKNOWN`. -/
def cpuBand (cpu_usage : Int) : String :=
  if cpu_usage < 70 then "OK"
  else if 70 ≤ cpu_usage ∧ cpu_usage < 85 then "WARNING"
  else if cpu_usage ≥ 85 then "CRITICAL"
  else "UNKNOWN"

/-- `LogstashService.get_status`: read
`int(data["process"]["cpu"]["percent"])` and band it.  `KeyError`,
`ValueError` and `TypeError` are each caught and mapped to
`InvalidHealthStatusError`; driver exceptions propagate. -/
def get_status (ev : TransportEvent) : Except CheckErr String :=
  match HttpDriver.request ev with
  | .error e => .error (.driver e)
  | .ok (_, data) =>
    match (pyGetItem data "process" >>= fun p => pyGetItem p "cpu" >>= fun c =>
        pyGetItem c "percent") >>= pyInt with
    | .error (.keyError _) => .error (.service .invalidHealthStatusError)
    | .error .valueError => .error (.service .invalidHealthStatusError)
    | .error .typeError => .error (.service .invalidHealthStatusError)
    | .error e => .error (.python e)
    | .ok cpu_usage => .ok (cpuBand cpu_usage)

end LogstashService

/-! ## Service registry (`src/services/base_service.py`) -/

/-- The concrete `BaseService` subclasses that are imported (and hence
registered) when the CLI runs: `check_services.py` imports exactly these
three service modules.  (A fourth file
`src/services/elastic_search_service.py` exists but is imported nowhere
and cannot be imported, since it references an exception class
`ServiceRequestError` that `src/lib/exceptions.py` does not define.) -/
inductive ServiceClass where
  | elasticsearchService : ServiceClass
  | kibanaService : ServiceClass
  | logstashService : ServiceClass
deriving DecidableEq

/-- Fuel-indexed worker for `pyReplace`. -/
def pyReplaceFuel (pat rep : List Char) : Nat → List Char → List Char
  | 0, l => l
  | _ + 1, [] => []
  | n + 1, c :: rest =>
    if pat.isPrefixOf (c :: rest) then
      rep ++ pyReplaceFuel pat rep n ((c :: rest).drop pat.length)
    else
      c :: pyReplaceFuel pat rep n rest

/-- Python `s.replace(pat, rep)` for a non-empty pattern: every
occurrence of `pat` in `s`, scanned left to right, is replaced by
`rep`. -/
def pyReplace (s pat rep : String) : String :=
  ⟨pyReplaceFuel pat.data rep.data s.data.length s.data⟩

namespace BaseService

/-- `sub.__name__` for each registered subclass. -/
def className : ServiceClass → String
  | .elasticsearchService => "ElasticsearchService"
  | .kibanaService => "KibanaService"
  | .logstashService => "LogstashService"

/-- `cls.__subclasses__()` as seen from `check_services.py`. -/
def subclasses : List ServiceClass :=
  [.elasticsearchService, .kibanaService, .logstashService]

/-- The registry key of a subclass:
`sub.__name__.replace("Service", "").lower()`. -/
def serviceKey (sub : ServiceClass) : String :=
  pyToLower (pyReplace (className sub) "Service" "")

/-- `BaseService.get_service`: build the name-to-class dict from the
subclasses and look the lower-cased requested name up; a missing key
raises `ServiceNotFoundError` with the original name in the message. -/
def get_service (service_name : String) : Except ServiceError ServiceClass :=
  match (subclasses.map (fun sub => (serviceKey sub, sub))).lookup
      (pyToLower service_name) with
  | some cls => .ok cls
  | none =>
    .error (.serviceNotFoundError
      ("ERROR: Service '" ++ service_name ++ "' not recognized!"))

end BaseService

/-! ## Nagios resource (`src/nagios/service_health_resource.py`) -/

/-- The supervisor's native state constants `nagiosplugin.Ok`,
`nagiosplugin.Warn`, `nagiosplugin.Critical`, `nagiosplugin.Unknown`. -/
inductive NagiosStateClass where
  | ok : NagiosStateClass
  | warn : NagiosStateClass
  | critical : NagiosStateClass
  | unknown : NagiosStateClass
deriving DecidableEq

/-- The `.code` of each supervisor state constant. -/
def nagiosCode : NagiosStateClass → Int
  | .ok => 0
  | .warn => 1
  | .critical => 2
  | .unknown => 3

/-- The severity word the supervisor prints for each state (upper-cased
state name, the `<SEVERITY_WORD>` of the output line). -/
def stateWord : NagiosStateClass → String
  | .ok => "OK"
  | .warn => "WARNING"
  | .critical => "CRITICAL"
  | .unknown => "UNKNOWN"

/-- The nagios-level exceptions of `src/lib/exceptions.py`. -/
inductive NagiosError where
  | invalidNagiosStateError (state : String) : NagiosError
deriving DecidableEq

/-- The `NagiosState` enum of `service_health_resource.py`: member-name
lookup `NagiosState[name]` returning the member's `.value` (a supervisor
state constant), `none` when the name is no member. -/
def NagiosState.lookup : String → Option NagiosStateClass
  | "OK" => some .ok
  | "WARNING" => some .warn
  | "CRITICAL" => some .critical
  | "UNKNOWN" => some .unknown
  | _ => none

/-- A `nagiosplugin.Metric` as built by `ServiceHealthResource.probe`. -/
structure Metric where
  name : String
  value : Int
  context : String
deriving DecidableEq

namespace ServiceHealthResource

/-- `ServiceHealthResource.probe`: upper-case the stored service status,
look it up in `NagiosState` (an unknown name raises
`InvalidNagiosStateError` carrying the original status), and return one
metric whose value is the state's numeric code. -/
def probe (service_status : String) : Except NagiosError (List Metric) :=
  match NagiosState.lookup (pyToUpper service_status) with
  | none => .error (.invalidNagiosStateError service_status)
  | some nagios_state =>
    .ok [{ name := "service_status", value := nagiosCode nagios_state,
           context := "service_health" }]

end ServiceHealthResource

/-! ## Nagios context (`src/nagios/service_health_context.py`) -/

namespace ServiceHealthContext

/-- The module-level `state_mapping` dict, as the `.get` lookup used on
it: code 0..3 to supervisor state, `none` otherwise. -/
def state_mapping (code : Int) : Option NagiosStateClass :=
  if code = 0 then some .ok
  else if code = 1 then some .warn
  else if code = 2 then some .critical
  else if code = 3 then some .unknown
  else none

/-- The module-level `state_messages` dict, as the `.get` lookup used on
it: code 0..3 to the fixed default message, `none` otherwise. -/
def state_messages (code : Int) : Option String :=
  if code = 0 then some "Service is up."
  else if code = 1 then some "Potential issue detected, investigate soon."
  else if code = 2 then
    some "Service is in a critical state. Action needed immediately!"
  else if code = 3 then
    some "Service state is unknown, please check the configuration or logs."
  else none

/-- `ServiceHealthContext.evaluate`:
`state_mapping.get(metric.value, nagiosplugin.Unknown)`. -/
def evaluate (metricValue : Int) : NagiosStateClass :=
  (state_mapping metricValue).getD .unknown

/-- `ServiceHealthContext.describe`: the custom description verbatim
when one was supplied, else
`state_messages.get(metric.value, "No status available")`. -/
def describe (custom_description : Option String) (metricValue : Int) : String :=
  match custom_description with
  | some d => d
  | none => (state_messages metricValue).getD "No status available"

/-- `ServiceHealthContext.performance`:
`f"service_status={metric.value}"`. -/
def performance (metricValue : Int) : String :=
  "service_status=" ++ toString metricValue

end ServiceHealthContext

/-! ## Orchestrator (`src/check_services.py`) -/

/-- Dispatch `service.get_status()` over the resolved service class. -/
def getStatusOf : ServiceClass → TransportEvent → Except CheckErr String
  | .elasticsearchService => ElasticsearchService.get_status
  | .kibanaService => KibanaService.get_status
  | .logstashService => LogstashService.get_status

/-- The observable outcome of one CLI invocation: a plugin report
(process exit code and status line), an error caught by the
`nagiosplugin` runtime guard inside `check.main()` (which reports
UNKNOWN, exit code 3), or an exception that escaped `check_service`
unhandled (a Python traceback at the process boundary). -/
inductive CheckOutcome where
  | report (exitCode : Int) (line : String) : CheckOutcome
  | mainGuarded (e : NagiosError) : CheckOutcome
  | uncaught (e : CheckErr) : CheckOutcome
deriving DecidableEq

/-- Modelled from the spec: the external `nagiosplugin` black box
(spec section 1 treats it as "a black box that takes a severity value
and message and produces the textual report and exit code"; section 6
fixes the output as one line `"<SEVERITY_WORD> - <message>"` plus the
performance-data suffix `| service_status=<code>`, with the exit code
equal to the severity code).  `check.main()` probes the resource,
evaluates the metric in the context, and reports; an exception raised
by `probe` is caught by the `nagiosplugin` runtime guard. -/
def runCheckMain (service_status : String) (custom_description : Option String) :
    CheckOutcome :=
  match ServiceHealthResource.probe service_status with
  | .error e => .mainGuarded e
  | .ok [m] =>
    let st := ServiceHealthContext.evaluate m.value
    .report (nagiosCode st)
      (stateWord st ++ " - " ++ ServiceHealthContext.describe custom_description m.value
        ++ " | " ++ ServiceHealthContext.performance m.value)
  | .ok _ => .mainGuarded (.invalidNagiosStateError service_status)

/-- `check_service` of `src/check_services.py`: resolve the service
class, call its `get_status`, convert each of the five caught driver
exception classes into status `"UNKNOWN"` plus its fixed override
description, and drive the nagios check.  Exceptions outside the five
`except` clauses (service-level errors, the bare `HttpDriverException`,
raw Python errors) propagate out of `check_service` unhandled; an
unknown service name would likewise raise out of `get_service` (for the
CLI, `click.Choice` restricts the name to the three registered ones). -/
def check_service (check : String) (ev : TransportEvent) : CheckOutcome :=
  match BaseService.get_service check with
  | .error e => .uncaught (.service e)
  | .ok service_class =>
    match getStatusOf service_class ev with
    | .ok service_status => runCheckMain service_status none
    | .error (.driver .httpConnectionError) =>
      runCheckMain "UNKNOWN" (some "Unable to connect to the service.")
    | .error (.driver .httpTimeoutError) =>
      runCheckMain "UNKNOWN" (some "Service request timed out.")
    | .error (.driver .httpAuthenticationError) =>
      runCheckMain "UNKNOWN" (some "Authentication failed for the service.")
    | .error (.driver (.httpStatusError _)) =>
      runCheckMain "UNKNOWN" (some "An HTTP status error occurred.")
    | .error (.driver .httpUnexpectedError) =>
      runCheckMain "UNKNOWN" (some "An unexpected error occurred.")
    | .error e => .uncaught e

/-! ## Statement-side definitions -/

/-- The four severity labels of the uniform severity model (spec
section 3), the strings a successful `get_status` may return. -/
def severityLabels : List String := ["OK", "WARNING", "CRITICAL", "UNKNOWN"]

/-- The fixed numeric severity code of each label (the code table of
spec section 3). -/
def specSeverityCode : String → Option Int
  | "OK" => some 0
  | "WARNING" => some 1
  | "CRITICAL" => some 2
  | "UNKNOWN" => some 3
  | _ => none

/-- The health body of the pipeline (Logstash) endpoint
`/_node/stats/process` with the given `process.cpu.percent` value. -/
def pipelineBody (percent : Json) : Json :=
  .obj [("process", .obj [("cpu", .obj [("percent", percent)])])]

/-- The health body of the cluster (Elasticsearch) endpoint
`/_health_report` with the given `status` value. -/
def clusterBody (status : Json) : Json :=
  .obj [("status", status)]

/-! ## Helper lemmas -/

theorem healthStatus_mem_es (k v : String)
    (h : ElasticsearchService.healthStatus k = some v) : v ∈ severityLabels := by
  unfold ElasticsearchService.healthStatus at h
  split at h <;> simp_all [severityLabels]

theorem healthStatus_mem_kb (k v : String)
    (h : KibanaService.healthStatus k = some v) : v ∈ severityLabels := by
  unfold KibanaService.healthStatus at h
  split at h <;> simp_all [severityLabels]

theorem cpuBand_mem (x : Int) : LogstashService.cpuBand x ∈ severityLabels := by
  unfold LogstashService.cpuBand
  split_ifs <;> simp [severityLabels]

theorem es_get_status_ok_mem (ev : TransportEvent) (s : String)
    (h : ElasticsearchService.get_status ev = .ok s) : s ∈ severityLabels := by
  unfold ElasticsearchService.get_status at h
  split at h
  · exact absurd h (by simp)
  · split at h
    · exact absurd h (by simp)
    · exact absurd h (by simp)
    · split at h
      · exact absurd h (by simp)
      · exact absurd h (by simp)
      · rename_i heq
        split at h
        · cases h
          exact healthStatus_mem_es _ _ (by assumption)
        · exact absurd h (by simp)

theorem kb_get_status_ok_mem (ev : TransportEvent) (s : String)
    (h : KibanaService.get_status ev = .ok s) : s ∈ severityLabels := by
  unfold KibanaService.get_status at h
  split at h
  · exact absurd h (by simp)
  · split at h
    · exact absurd h (by simp)
    · exact absurd h (by simp)
    · split at h
      · exact absurd h (by simp)
      · exact absurd h (by simp)
      · split at h
        · cases h
          exact healthStatus_mem_kb _ _ (by assumption)
        · exact absurd h (by simp)

theorem ls_get_status_ok_shape (ev : TransportEvent) (s : String)
    (h : LogstashService.get_status ev = .ok s) :
    ∃ x : Int, LogstashService.cpuBand x = s := by
  unfold LogstashService.get_status at h
  split at h
  · exact absurd h (by simp)
  · split at h
    · exact absurd h (by simp)
    · exact absurd h (by simp)
    · exact absurd h (by simp)
    · exact absurd h (by simp)
    · cases h
      exact ⟨_, rfl⟩

/-! ## Claim theorems -/

/-- C3: for the cluster (Elasticsearch) probe, a response body with
`status` `"green"` yields OK, `"yellow"` WARNING, `"red"` CRITICAL,
`"unknown"` UNKNOWN, and any other string (e.g. `"blue"`) raises
`InvalidHealthStatusError`. -/
theorem C3_cluster_vocabulary :
    ElasticsearchService.get_status (.completed 200 (clusterBody (.str "green"))) = .ok "OK" ∧
    ElasticsearchService.get_status (.completed 200 (clusterBody (.str "yellow"))) = .ok "WARNING" ∧
    ElasticsearchService.get_status (.completed 200 (clusterBody (.str "red"))) = .ok "CRITICAL" ∧
    ElasticsearchService.get_status (.completed 200 (clusterBody (.str "unknown"))) = .ok "UNKNOWN" ∧
    ElasticsearchService.get_status (.completed 200 (clusterBody (.str "blue"))) =
      .error (.service .invalidHealthStatusError) :=
  ⟨rfl, rfl, rfl, rfl, rfl⟩

/-- C4: for the cluster (Elasticsearch) probe, a response body lacking
the `status` key raises `InvalidHealthStatusError`, and a body with
`status` null raises `StatusFormatError`. -/
theorem C4_cluster_malformed :
    ElasticsearchService.get_status (.completed 200 (.obj [("cluster_name", .str "demo")])) =
      .error (.service .invalidHealthStatusError) ∧
    ElasticsearchService.get_status (.completed 200 (clusterBody .null)) =
      .error (.service .statusFormatError) :=
  ⟨rfl, rfl⟩

/-- C5: for the pipeline (Logstash) probe the CPU value is coerced to an
integer and strictly banded (`< 70` OK, `70 ≤ x < 85` WARNING, `≥ 85`
CRITICAL); a successfully coerced value yields the band, and a
non-numeric value raises `InvalidHealthStatusError` instead of
returning UNKNOWN. -/
theorem C5_pipeline_thresholds :
    (∀ x : Int,
      (x < 70 → LogstashService.cpuBand x = "OK") ∧
      (70 ≤ x → x < 85 → LogstashService.cpuBand x = "WARNING") ∧
      (85 ≤ x → LogstashService.cpuBand x = "CRITICAL")) ∧
    (∀ x : Int,
      LogstashService.get_status (.completed 200 (pipelineBody (.num x))) =
        .ok (LogstashService.cpuBand x)) ∧
    LogstashService.get_status (.completed 200 (pipelineBody (.str "75"))) =
      .ok "WARNING" ∧
    LogstashService.get_status (.completed 200 (pipelineBody (.str "abc"))) =
      .error (.service .invalidHealthStatusError) ∧
    LogstashService.get_status (.completed 200 (pipelineBody .null)) =
      .error (.service .invalidHealthStatusError) := by
  refine ⟨fun x => ⟨?_, ?_, ?_⟩, fun x => rfl, rfl, rfl, rfl⟩
  · intro h
    unfold LogstashService.cpuBand
    rw [if_pos h]
  · intro h1 h2
    unfold LogstashService.cpuBand
    rw [if_neg (by omega), if_pos ⟨h1, h2⟩]
  · intro h
    unfold LogstashService.cpuBand
    rw [if_neg (by omega), if_neg (by omega), if_pos h]

/-- Witness for C5 at CPU values 50, 75 and 90. -/
theorem C5_pipeline_thresholds_witness :
    LogstashService.cpuBand 50 = "OK" ∧
    LogstashService.cpuBand 75 = "WARNING" ∧
    LogstashService.cpuBand 90 = "CRITICAL" ∧
    LogstashService.get_status (.completed 200 (pipelineBody (.num 50))) =
      .ok (LogstashService.cpuBand 50) :=
  ⟨(C5_pipeline_thresholds.1 50).1 (by decide),
   (C5_pipeline_thresholds.1 75).2.1 (by decide) (by decide),
   (C5_pipeline_thresholds.1 90).2.2 (by decide),
   C5_pipeline_thresholds.2.1 50⟩

/-- C8: the defensive UNKNOWN branch of the CPU banding is dead code:
for every integer one of the three bands applies, the band function
never yields `"UNKNOWN"`, and a `get_status` call that successfully
coerced the CPU value never returns `"UNKNOWN"`. -/
theorem C8_unknown_band_dead :
    (∀ x : Int,
      (x < 70 ∨ (70 ≤ x ∧ x < 85) ∨ 85 ≤ x) ∧
      LogstashService.cpuBand x ≠ "UNKNOWN") ∧
    (∀ (ev : TransportEvent) (s : String),
      LogstashService.get_status ev = .ok s → s ≠ "UNKNOWN") := by
  have hband : ∀ x : Int, LogstashService.cpuBand x ≠ "UNKNOWN" := by
    intro x
    unfold LogstashService.cpuBand
    split_ifs with h1 h2 h3
    · decide
    · decide
    · decide
    · omega
  refine ⟨fun x => ⟨by omega, hband x⟩, fun ev s h => ?_⟩
  obtain ⟨x, hx⟩ := ls_get_status_ok_shape ev s h
  exact hx ▸ hband x

/-- Witness for C8 at CPU value 50 (band OK, returned status `"OK"`). -/
theorem C8_unknown_band_dead_witness :
    LogstashService.cpuBand 50 ≠ "UNKNOWN" ∧ ("OK" : String) ≠ "UNKNOWN" :=
  ⟨(C8_unknown_band_dead.1 50).2,
   C8_unknown_band_dead.2 (.completed 200 (pipelineBody (.num 50))) "OK" rfl⟩

/-- C10: every string a successful `get_status` of any of the three
probes returns is one of `"OK"`, `"WARNING"`, `"CRITICAL"`,
`"UNKNOWN"`, and `ServiceHealthResource.probe` on such a string never
raises `InvalidNagiosStateError`: it returns exactly one metric whose
value is the matching numeric severity code. -/
theorem C10_status_feeds_probe :
    ∀ (c : ServiceClass) (ev : TransportEvent) (s : String),
      getStatusOf c ev = .ok s →
      s ∈ severityLabels ∧
      ∃ code, specSeverityCode s = some code ∧
        ServiceHealthResource.probe s =
          .ok [{ name := "service_status", value := code,
                 context := "service_health" }] := by
  intro c ev s h
  have hm : s ∈ severityLabels := by
    cases c with
    | elasticsearchService => exact es_get_status_ok_mem ev s h
    | kibanaService => exact kb_get_status_ok_mem ev s h
    | logstashService =>
      obtain ⟨x, hx⟩ := ls_get_status_ok_shape ev s h
      exact hx ▸ cpuBand_mem x
  refine ⟨hm, ?_⟩
  simp only [severityLabels, List.mem_cons, List.not_mem_nil, or_false] at hm
  rcases hm with rfl | rfl | rfl | rfl
  · exact ⟨0, rfl, rfl⟩
  · exact ⟨1, rfl, rfl⟩
  · exact ⟨2, rfl, rfl⟩
  · exact ⟨3, rfl, rfl⟩

/-- Witness for C10: the cluster probe on a green response returns
`"OK"`, which the nagios resource probes to code 0. -/
theorem C10_status_feeds_probe_witness :
    "OK" ∈ severityLabels ∧
    ∃ code, specSeverityCode "OK" = some code ∧
      ServiceHealthResource.probe "OK" =
        .ok [{ name := "service_status", value := code,
               context := "service_health" }] :=
  C10_status_feeds_probe .elasticsearchService
    (.completed 200 (clusterBody (.str "green"))) "OK" rfl

theorem registryPairs :
    BaseService.subclasses.map (fun sub => (BaseService.serviceKey sub, sub)) =
      [("elasticsearch", .elasticsearchService), ("kibana", .kibanaService),
       ("logstash", .logstashService)] := rfl

/-- C6: registry lookup is case-insensitive — every name lower-casing to
a registered key resolves to that probe class — and every unmatched name
raises `ServiceNotFoundError` whose message carries the original,
unmodified-case name. -/
theorem C6_registry_resolution :
    (∀ name : String, pyToLower name = "elasticsearch" →
      BaseService.get_service name = .ok .elasticsearchService) ∧
    (∀ name : String, pyToLower name = "kibana" →
      BaseService.get_service name = .ok .kibanaService) ∧
    (∀ name : String, pyToLower name = "logstash" →
      BaseService.get_service name = .ok .logstashService) ∧
    (∀ name : String,
      pyToLower name ∉ (["elasticsearch", "kibana", "logstash"] : List String) →
      BaseService.get_service name =
        .error (.serviceNotFoundError
          ("ERROR: Service '" ++ name ++ "' not recognized!"))) := by
  refine ⟨?_, ?_, ?_, ?_⟩
  · intro name h
    unfold BaseService.get_service
    rw [registryPairs, h]
    rfl
  · intro name h
    unfold BaseService.get_service
    rw [registryPairs, h]
    rfl
  · intro name h
    unfold BaseService.get_service
    rw [registryPairs, h]
    rfl
  · intro name h
    simp only [List.mem_cons, List.not_mem_nil, or_false, not_or] at h
    obtain ⟨h1, h2, h3⟩ := h
    unfold BaseService.get_service
    rw [registryPairs]
    simp only [List.lookup]
    cases hb1 : pyToLower name == "elasticsearch" with
    | true => exact absurd (eq_of_beq hb1) h1
    | false =>
      cases hb2 : pyToLower name == "kibana" with
      | true => exact absurd (eq_of_beq hb2) h2
      | false =>
        cases hb3 : pyToLower name == "logstash" with
        | true => exact absurd (eq_of_beq hb3) h3
        | false => rfl

/-- Witness for C6 at the names `"ELASTICSEARCH"` and `"bogus"`. -/
theorem C6_registry_resolution_witness :
    BaseService.get_service "ELASTICSEARCH" = .ok .elasticsearchService ∧
    BaseService.get_service "bogus" =
      .error (.serviceNotFoundError "ERROR: Service 'bogus' not recognized!") :=
  ⟨C6_registry_resolution.1 "ELASTICSEARCH" rfl,
   C6_registry_resolution.2.2.2 "bogus" (by decide)⟩

/-- C7: `evaluate` maps the four severity codes to the four supervisor
states and any other code to Unknown; `describe` with no override
returns the fixed default message per code, a generic fallback for an
unrecognized code, and a supplied override verbatim. -/
theorem C7_reporter_tables :
    (ServiceHealthContext.evaluate 0 = .ok ∧
     ServiceHealthContext.evaluate 1 = .warn ∧
     ServiceHealthContext.evaluate 2 = .critical ∧
     ServiceHealthContext.evaluate 3 = .unknown) ∧
    (ServiceHealthContext.describe none 0 = "Service is up." ∧
     ServiceHealthContext.describe none 1 =
       "Potential issue detected, investigate soon." ∧
     ServiceHealthContext.describe none 2 =
       "Service is in a critical state. Action needed immediately!" ∧
     ServiceHealthContext.describe none 3 =
       "Service state is unknown, please check the configuration or logs.") ∧
    (∀ code : Int, code ∉ ([0, 1, 2, 3] : List Int) →
      ServiceHealthContext.evaluate code = .unknown ∧
      ServiceHealthContext.describe none code = "No status available") ∧
    (∀ (d : String) (code : Int), ServiceHealthContext.describe (some d) code = d) := by
  refine ⟨⟨rfl, rfl, rfl, rfl⟩, ⟨rfl, rfl, rfl, rfl⟩, ?_, fun d code => rfl⟩
  intro code h
  simp only [List.mem_cons, List.not_mem_nil, or_false, not_or] at h
  obtain ⟨h0, h1, h2, h3⟩ := h
  constructor
  · unfold ServiceHealthContext.evaluate ServiceHealthContext.state_mapping
    rw [if_neg h0, if_neg h1, if_neg h2, if_neg h3]
    rfl
  · unfold ServiceHealthContext.describe ServiceHealthContext.state_messages
    rw [if_neg h0, if_neg h1, if_neg h2, if_neg h3]
    rfl

/-- Witness for C7 at the out-of-range code 42 and an override. -/
theorem C7_reporter_tables_witness :
    ServiceHealthContext.evaluate 42 = .unknown ∧
    ServiceHealthContext.describe none 42 = "No status available" ∧
    ServiceHealthContext.describe (some "Custom message") 0 = "Custom message" :=
  ⟨(C7_reporter_tables.2.2.1 42 (by decide)).1,
   (C7_reporter_tables.2.2.1 42 (by decide)).2,
   C7_reporter_tables.2.2.2 "Custom message" 0⟩

theorem request_status_range (s : Nat) (body : Json) (h1 : 400 ≤ s) (h2 : s < 600)
    (h3 : s ≠ 401) :
    HttpDriver.request (.completed s body) =
      .error (.httpStatusError ("HTTP error occurred: " ++ toString s)) := by
  simp only [HttpDriver.request, raiseForStatus,
    if_pos (show 400 ≤ s ∧ s < 600 from ⟨h1, h2⟩)]
  rw [if_neg h3]

theorem request_status_out_of_range (s : Nat) (body : Json)
    (h : ¬(400 ≤ s ∧ s < 600)) :
    HttpDriver.request (.completed s body) = .ok (s, body) := by
  simp only [HttpDriver.request, raiseForStatus, if_neg h]

theorem es_status_error (s : Nat) (body : Json) (h1 : 400 ≤ s) (h2 : s < 600)
    (h3 : s ≠ 401) :
    ElasticsearchService.get_status (.completed s body) =
      .error (.driver (.httpStatusError ("HTTP error occurred: " ++ toString s))) := by
  simp only [ElasticsearchService.get_status, request_status_range s body h1 h2 h3]

theorem kb_status_error (s : Nat) (body : Json) (h1 : 400 ≤ s) (h2 : s < 600)
    (h3 : s ≠ 401) :
    KibanaService.get_status (.completed s body) =
      .error (.driver (.httpStatusError ("HTTP error occurred: " ++ toString s))) := by
  simp only [KibanaService.get_status, request_status_range s body h1 h2 h3]

theorem ls_status_error (s : Nat) (body : Json) (h1 : 400 ≤ s) (h2 : s < 600)
    (h3 : s ≠ 401) :
    LogstashService.get_status (.completed s body) =
      .error (.driver (.httpStatusError ("HTTP error occurred: " ++ toString s))) := by
  simp only [LogstashService.get_status, request_status_range s body h1 h2 h3]

theorem get_service_elasticsearch :
    BaseService.get_service "elasticsearch" = .ok .elasticsearchService := rfl

theorem get_service_kibana :
    BaseService.get_service "kibana" = .ok .kibanaService := rfl

theorem get_service_logstash :
    BaseService.get_service "logstash" = .ok .logstashService := rfl

/-- C2 counterexample: 304 is not a 2xx status code, yet
`HttpDriver.request` on a completed 304 response returns it as a
success instead of raising `HttpStatusError`
(`requests.Response.raise_for_status` raises only for 400-599). -/
theorem C2_counterexample_304 :
    ¬(200 ≤ 304 ∧ 304 < 300) ∧
    HttpDriver.request (.completed 304 .null) = .ok (304, .null) :=
  ⟨by decide, rfl⟩

/-- C2 amended: a completed 401 raises `AuthenticationError`; any other
completed status in 400..599 raises `StatusError` with the numeric code
in its message; statuses outside 400..599 (2xx, but also e.g. 304) are
returned as success; a connection failure raises `ConnectionError`, a
timeout `TimeoutError`, any other request exception `UnexpectedError`,
and an `HTTPError` carrying no response the bare base driver
exception. -/
theorem C2_amended_driver_taxonomy :
    (∀ body : Json, HttpDriver.request (.completed 401 body) =
      .error .httpAuthenticationError) ∧
    (∀ (s : Nat) (body : Json), 400 ≤ s → s < 600 → s ≠ 401 →
      ∃ msg, HttpDriver.request (.completed s body) = .error (.httpStatusError msg) ∧
        ∃ pre, msg = pre ++ toString s) ∧
    (∀ (s : Nat) (body : Json), ¬(400 ≤ s ∧ s < 600) →
      HttpDriver.request (.completed s body) = .ok (s, body)) ∧
    HttpDriver.request .raisedConnectionError = .error .httpConnectionError ∧
    HttpDriver.request .raisedTimeout = .error .httpTimeoutError ∧
    HttpDriver.request .raisedRequestException = .error .httpUnexpectedError ∧
    HttpDriver.request (.raisedHttpError none) = .error .httpDriverException := by
  refine ⟨fun body => rfl, ?_, ?_, rfl, rfl, rfl, rfl⟩
  · intro s body h1 h2 h3
    exact ⟨_, request_status_range s body h1 h2 h3, "HTTP error occurred: ", rfl⟩
  · intro s body h
    exact request_status_out_of_range s body h

/-- Witness for C2 at statuses 500 (StatusError with the code in the
message) and 204 (success). -/
theorem C2_amended_driver_taxonomy_witness :
    (∃ msg, HttpDriver.request (.completed 500 .null) = .error (.httpStatusError msg) ∧
      ∃ pre, msg = pre ++ toString 500) ∧
    HttpDriver.request (.completed 204 .null) = .ok (204, .null) :=
  ⟨C2_amended_driver_taxonomy.2.1 500 .null (by decide) (by decide) (by decide),
   C2_amended_driver_taxonomy.2.2.1 204 .null (by decide)⟩

/-- C1 counterexample: an expected domain error — the
`InvalidHealthStatusError` raised by the cluster probe on the
unrecognized status `"blue"` — escapes `check_service` unhandled to the
process boundary instead of being converted to severity UNKNOWN. -/
theorem C1_counterexample_domain_error_escapes :
    check_service "elasticsearch" (.completed 200 (clusterBody (.str "blue"))) =
      .uncaught (.service .invalidHealthStatusError) := rfl

/-- C1 amended: for every service kind, each of the five *transport*
exception classes caught by the orchestrator is converted to severity
UNKNOWN (exit code 3) with its fixed override message — a caught
ConnectionError in particular reports
`"UNKNOWN - Unable to connect to the service."` — while domain errors
raised during a check are not caught and escape unhandled (see the
counterexample); a green cluster response reports
`"OK - Service is up."` with exit code 0. -/
theorem C1_amended_orchestrator :
    (∀ check, check ∈ (["elasticsearch", "kibana", "logstash"] : List String) →
      check_service check .raisedConnectionError =
        .report 3 "UNKNOWN - Unable to connect to the service. | service_status=3" ∧
      check_service check .raisedTimeout =
        .report 3 "UNKNOWN - Service request timed out. | service_status=3" ∧
      (∀ body : Json, check_service check (.completed 401 body) =
        .report 3 "UNKNOWN - Authentication failed for the service. | service_status=3") ∧
      (∀ (s : Nat) (body : Json), 400 ≤ s → s < 600 → s ≠ 401 →
        check_service check (.completed s body) =
          .report 3 "UNKNOWN - An HTTP status error occurred. | service_status=3") ∧
      check_service check .raisedRequestException =
        .report 3 "UNKNOWN - An unexpected error occurred. | service_status=3") ∧
    check_service "elasticsearch" (.completed 200 (clusterBody (.str "green"))) =
      .report 0 "OK - Service is up. | service_status=0" := by
  refine ⟨?_, rfl⟩
  intro check hc
  simp only [List.mem_cons, List.not_mem_nil, or_false] at hc
  rcases hc with rfl | rfl | rfl
  · refine ⟨rfl, rfl, fun body => rfl, fun s body h1 h2 h3 => ?_, rfl⟩
    simp only [check_service, get_service_elasticsearch, getStatusOf,
      es_status_error s body h1 h2 h3]
    rfl
  · refine ⟨rfl, rfl, fun body => rfl, fun s body h1 h2 h3 => ?_, rfl⟩
    simp only [check_service, get_service_kibana, getStatusOf,
      kb_status_error s body h1 h2 h3]
    rfl
  · refine ⟨rfl, rfl, fun body => rfl, fun s body h1 h2 h3 => ?_, rfl⟩
    simp only [check_service, get_service_logstash, getStatusOf,
      ls_status_error s body h1 h2 h3]
    rfl

/-- Witness for C1: a connection error against Kibana and a 503 against
Logstash both report UNKNOWN with the fixed override messages. -/
theorem C1_amended_orchestrator_witness :
    check_service "kibana" .raisedConnectionError =
      .report 3 "UNKNOWN - Unable to connect to the service. | service_status=3" ∧
    check_service "logstash" (.completed 503 .null) =
      .report 3 "UNKNOWN - An HTTP status error occurred. | service_status=3" :=
  ⟨(C1_amended_orchestrator.1 "kibana" (by decide)).1,
   (C1_amended_orchestrator.1 "logstash" (by decide)).2.2.2.1 503 .null
     (by decide) (by decide) (by decide)⟩

/-- C9: one invocation's outcome is a function of the service name and
the transport response alone — two invocations with identical transport
responses yield identical severity and message, for the whole check and
for each probe's `get_status`. -/
theorem C9_deterministic (check : String) (ev1 ev2 : TransportEvent) (h : ev1 = ev2) :
    check_service check ev1 = check_service check ev2 ∧
    (∀ c : ServiceClass, getStatusOf c ev1 = getStatusOf c ev2) := by
  subst h
  exact ⟨rfl, fun c => rfl⟩

/-- Witness for C9: repeating the green-cluster invocation. -/
theorem C9_deterministic_witness :
    check_service "elasticsearch" (.completed 200 (clusterBody (.str "green"))) =
      check_service "elasticsearch" (.completed 200 (clusterBody (.str "green"))) :=
  (C9_deterministic "elasticsearch" (.completed 200 (clusterBody (.str "green")))
    (.completed 200 (clusterBody (.str "green"))) rfl).1
